import Mathlib

/-!
Verification of the minimba ETL pipeline (Norwegian energy-certificate data).

This file gives a shallow embedding of the services under `src/services/`
(`csv_processor.py`, `api_client.py`, `openai_service.py`, `text_cleaner.py`,
`pdf_downloader.py`) and proves or refutes the frozen specification claims
about them.  Database tables are modelled as explicit lists of rows, database
queries and HTTP responses as explicit oracle parameters, and each stateful
Python method as a pure Lean function from the old state to the result paired
with the new state.
-/

namespace MiniMBA

/-! ## CSV processor (`src/services/csv_processor.py`)

`CSVProcessor.insert_to_database` partitions the rows of a pandas `DataFrame`
into slices `df.iloc[start:start+batch_size]`.  `chunksOf n l` reproduces this
partition for a list `l`. -/

/-- Partition a list into consecutive chunks of size `n` (last chunk may be
shorter).  Mirrors `range(0, total_rows, batch_size)` + `iloc` slicing. -/
def chunksOf (n : Nat) (l : List α) : List (List α) :=
  match n, l with
  | 0, _ => []
  | _ + 1, [] => []
  | m + 1, x :: xs => ((x :: xs).take (m + 1)) :: chunksOf (m + 1) ((x :: xs).drop (m + 1))
termination_by l.length
decreasing_by
  simp only [List.length_drop, List.length_cons]
  omega

/-- A row of the staging table / CSV `DataFrame`.  Only the natural key
(`Attestnummer`, `none` modelling pandas `NaN`) matters to the import logic;
`payload` stands for the remaining ~23 columns and gives rows an identity. -/
structure Row where
  attestnummer : Option String
  payload : Nat
deriving DecidableEq, Repr

/-- A pandas `DataFrame` as seen by the CSV processor: whether the
`Attestnummer` column is present at all, and the data rows. -/
structure DataFrame where
  hasKeyColumn : Bool
  rows : List Row
deriving DecidableEq, Repr

/-- Result dictionary of `CSVProcessor.check_existing_records`. -/
structure CheckResult where
  existing_count : Nat
  new_count : Nat
  existing_attestnummer : List String
  new_records : List Row
  check_error : Option String
deriving DecidableEq, Repr

/-- The `return` value used when no duplicate check is possible
(no `Attestnummer` column, or no non-null keys). -/
def allNewResult (df : DataFrame) : CheckResult :=
  { existing_count := 0
    new_count := df.rows.length
    existing_attestnummer := []
    new_records := df.rows
    check_error := none }

/-- Sequential execution of the per-batch `SELECT ... WHERE Attestnummer IN`
queries; an exception on any batch aborts the whole check
(the Python `try` wraps the entire loop). -/
def runBatchQueries (q : List String → Except String (List String)) :
    List (List String) → Except String (List String)
  | [] => .ok []
  | b :: bs => do
      let r ← q b
      let rest ← runBatchQueries q bs
      pure (r ++ rest)

/-- `CSVProcessor.check_existing_records`.  `q` models one
`cursor.execute(check_sql, batch); fetchall()` round-trip: given a batch of
key values it returns the `Attestnummer` values of matching table rows, or
raises (`Except.error`).  Batch size is 1000 as in the source. -/
def check_existing_records (q : List String → Except String (List String))
    (df : DataFrame) : CheckResult :=
  if !df.hasKeyColumn then allNewResult df
  else
    let attestnummerList := df.rows.filterMap (·.attestnummer)
    if attestnummerList.isEmpty then allNewResult df
    else
      match runBatchQueries q (chunksOf 1000 attestnummerList) with
      | .error e => { allNewResult df with check_error := some e }
      | .ok allExisting =>
          let newRecords := df.rows.filter (fun r =>
            match r.attestnummer with
            | none => true
            | some k => !allExisting.contains k)
          { existing_count := allExisting.length
            new_count := newRecords.length
            existing_attestnummer := allExisting
            new_records := newRecords
            check_error := none }

/-- The duplicate-check query against a committed staging table `tbl`
(list of stored `Attestnummer` values):
`SELECT Attestnummer FROM EnovaApi_ImpHist WHERE Attestnummer IN (batch)`. -/
def tableQuery (tbl : List String) (batch : List String) :
    Except String (List String) :=
  .ok (tbl.filter (fun k => batch.contains k))

/-- Does the row's natural key already occur in the given list of stored
keys?  (`false` for a null key: `dropna` removes it from the check and
`isin` never matches `NaN`.) -/
def keyExistsIn (storeKeys : List String) (r : Row) : Bool :=
  match r.attestnummer with
  | none => false
  | some k => storeKeys.contains k

/-- Result dictionary of `CSVProcessor.insert_to_database` (the `insert_rate`
float is omitted; it is derived from the counts below). -/
structure InsertResult where
  success : Bool
  total_rows : Nat
  inserted_rows : Nat
  skipped_rows : Nat
  failed_rows : Nat
  errors : List String
  message : Option String
deriving DecidableEq, Repr

/-- Accumulator of the per-batch insert loop: the committed staging table and
the `inserted_rows` / `failed_rows` / `errors` counters. -/
structure InsertLoopState where
  table : List Row
  inserted : Nat
  failed : Nat
  errors : List String
deriving DecidableEq, Repr

/-- The per-batch loop of `insert_to_database`: each batch is executed with
`cursor.executemany` and committed; an exception inside a batch rolls back
that batch only (`conn.rollback()`), records one error message and counts the
batch's rows as failed, and the loop continues with the next batch.
`ins start batch` models the outcome of `executemany` on the batch starting
at row index `start` (`none` = success, `some msg` = the raised error). -/
def insertBatches (ins : Nat → List Row → Option String) (total bs : Nat) :
    List (List Row) → Nat → InsertLoopState → InsertLoopState
  | [], _, s => s
  | b :: rest, start, s =>
      match ins start b with
      | none =>
          insertBatches ins total bs rest (start + bs)
            { s with table := s.table ++ b, inserted := s.inserted + b.length }
      | some msg =>
          insertBatches ins total bs rest (start + bs)
            { s with
              failed := s.failed + b.length
              errors := s.errors ++
                ["Batch " ++ toString start ++ "-" ++ toString (min (start + bs) total) ++
                  " failed: " ++ msg] }

/-- `CSVProcessor.insert_to_database`.  `q` is the duplicate-check query
oracle, `ins` the per-batch insert outcome oracle, `tbl` the committed
staging table before the call.  Returns the result dictionary and the
staging table after the call. -/
def insert_to_database (q : List String → Except String (List String))
    (ins : Nat → List Row → Option String) (df : DataFrame)
    (batch_size : Nat) (skip_duplicates : Bool) (tbl : List Row) :
    InsertResult × List Row :=
  let checked :=
    if skip_duplicates then
      let dc := check_existing_records q df
      (dc.new_records, dc.existing_count)
    else (df.rows, 0)
  let dfToInsert := checked.1
  let skippedCount := checked.2
  if skip_duplicates && dfToInsert.isEmpty then
    ({ success := true
       total_rows := df.rows.length
       inserted_rows := 0
       skipped_rows := skippedCount
       failed_rows := 0
       errors := []
       message := some "All records already exist in database" }, tbl)
  else
    let totalRows := dfToInsert.length
    let final := insertBatches ins totalRows batch_size
      (chunksOf batch_size dfToInsert) 0 ⟨tbl, 0, 0, []⟩
    ({ success := decide (0 < final.inserted) || (decide (totalRows = 0) && decide (0 < skippedCount))
       total_rows := df.rows.length
       inserted_rows := final.inserted
       skipped_rows := skippedCount
       failed_rows := final.failed
       errors := final.errors
       message := none }, final.table)

/-! ## Detail-API client (`src/services/api_client.py`) -/

/-- A row of the `EnovaApi_Energiattest_url_log` table.  `logDate` is the
batch timestamp written by `log_api_parameters`. -/
structure LogRow where
  certificateId : Nat
  logDate : Nat
  recordsReturned : Option Nat
  statusMessage : String
deriving DecidableEq, Repr

/-- Effect of `EnovaApiClient.update_api_log`'s `UPDATE` statement on a
single log row: the `WHERE` clause matches on `CertificateID` and
`status_message = 'Pending'` only — it carries no batch / `LogDate`
condition. -/
def updateLogRow (certificateId recordsReturned : Nat) (statusMessage : String)
    (r : LogRow) : LogRow :=
  if r.certificateId == certificateId && r.statusMessage == "Pending" then
    { r with recordsReturned := some recordsReturned, statusMessage := statusMessage }
  else r

/-- `EnovaApiClient.update_api_log`: run the `UPDATE` against the log table
and return `rows_affected > 0` together with the updated table. -/
def update_api_log (certificateId recordsReturned : Nat) (statusMessage : String)
    (log : List LogRow) : Bool × List LogRow :=
  let rowsAffected := log.countP (fun r =>
    r.certificateId == certificateId && r.statusMessage == "Pending")
  (decide (0 < rowsAffected), log.map (updateLogRow certificateId recordsReturned statusMessage))

/-- One detail record returned by the `Energiattest` endpoint (the nested
attribute set is abstracted into `payload`). -/
structure DetailData where
  attestnummer : Option String
  payload : Nat
deriving DecidableEq, Repr

/-- An HTTP response of the detail endpoint as seen by
`call_energiattest_api`: the status code, the parsed
`errors["EnergiattestResponse"]` array (each error as its character
sequence) when the 400 body contains one, and the parsed body for a 200. -/
structure HttpResponse where
  status : Nat
  energiattestErrors : Option (List (List Char))
  data : List DetailData
deriving DecidableEq, Repr

/-- Return value of `call_energiattest_api`: the `"TOO_MANY_RESULTS"`
sentinel, the parsed record list, or `None`. -/
inductive ApiCallResult where
  | tooManyResults
  | records (l : List DetailData)
  | failure
deriving DecidableEq, Repr

/-- `any("more than twenty five" in str(err).lower() for err in ...)`. -/
def hasTooManyText (errs : List (List Char)) : Bool :=
  errs.any (fun e => decide ("more than twenty five".toList <:+: e.map Char.toLower))

/-- `EnovaApiClient.call_energiattest_api` response classification: non-200
is a failure, except a 400 whose `errors["EnergiattestResponse"]` array
mentions "more than twenty five", which is the distinct
`TOO_MANY_RESULTS` outcome. -/
def call_energiattest_api (resp : HttpResponse) : ApiCallResult :=
  if resp.status ≠ 200 then
    if resp.status = 400 then
      match resp.energiattestErrors with
      | some errs => if hasTooManyText errs then .tooManyResults else .failure
      | none => .failure
    else .failure
  else .records resp.data

/-- `EnovaApiClient.save_energiattest_data`: each returned record is
inserted individually, a per-record exception is caught and only skips that
record.  `saveOk` models whether the row insert succeeds. -/
def save_energiattest_data (saveOk : DetailData → Bool)
    (dataList : List DetailData) : List DetailData :=
  dataList.filter saveOk

/-- Per-certificate outcome of the `process_certificates` loop body. -/
structure StepResult where
  recordsReturned : Nat
  statusMessage : String
  savedRecords : List DetailData
deriving DecidableEq, Repr

/-- The body of the `process_certificates` loop for one parameter set:
classify the API response, persist returned records (non-empty 200 only),
and update the log row with the terminal status.  Returns the step outcome
and the updated log table. -/
def process_one_certificate (saveOk : DetailData → Bool) (resp : HttpResponse)
    (certificateId : Nat) (log : List LogRow) : StepResult × List LogRow :=
  match call_energiattest_api resp with
  | .tooManyResults =>
      (⟨0, "Too many results (25+ eiendommer)", []⟩,
        (update_api_log certificateId 0 "Too many results (25+ eiendommer)" log).2)
  | .records l =>
      if l.isEmpty then
        (⟨0, "No records found", []⟩,
          (update_api_log certificateId 0 "No records found" log).2)
      else
        let saved := save_energiattest_data saveOk l
        let status := if 0 < saved.length then "Success"
          else "API returned data but no records saved"
        (⟨l.length, status, saved⟩,
          (update_api_log certificateId l.length status log).2)
  | .failure =>
      (⟨0, "No records found", []⟩,
        (update_api_log certificateId 0 "No records found" log).2)

/-! ## LLM summarization service (`src/services/openai_service.py`) -/

/-- A row of `SampleTestDataForOpenAI`: the file id and the values of the
prompt columns (`PROMPT_V1_NOR`, `PROMPT_V2_NOR`, ...) as an association
list; an absent entry models SQL `NULL`. -/
structure SourceRow where
  fileId : Nat
  prompts : List (String × String)
deriving DecidableEq, Repr

/-- A row of `OpenAIAnswers` as far as the fetch query reads it. -/
structure AnswerRow where
  fileId : Nat
  promptVersion : String
deriving DecidableEq, Repr

/-- Strip leading and trailing whitespace from a character sequence
(SQL `TRIM`, Python `str.strip`). -/
def trimChars (l : List Char) : List Char :=
  ((l.dropWhile Char.isWhitespace).reverse.dropWhile Char.isWhitespace).reverse

/-- `OpenAIEnergyService.get_prompts_data`: select `(FILE_ID, prompt)` from
the source table, excluding file ids with an `OpenAIAnswers` row for the
requested prompt version, requiring `col IS NOT NULL` and
`LEN(TRIM(col)) > 0`, ordered by `FILE_ID`, cut to `TOP limit` rows when a
limit is given. -/
def get_prompts_data (promptColumn : String) (limit : Option Nat)
    (src : List SourceRow) (answers : List AnswerRow) : List (Nat × String) :=
  let filtered := src.filter (fun r =>
    (!answers.any (fun a => a.fileId == r.fileId && a.promptVersion == promptColumn)) &&
    (match r.prompts.lookup promptColumn with
     | none => false
     | some v => decide (0 < (trimChars v.toList).length)))
  let sorted := filtered.insertionSort (fun a b => a.fileId ≤ b.fileId)
  let limited := match limit with
    | none => sorted
    | some n => sorted.take n
  limited.map (fun r => (r.fileId, (r.prompts.lookup promptColumn).getD ""))

/-! ## Text cleaning (`src/services/text_cleaner.py`) -/

/-- The `PDFTextCleaner` component as used by `clean_single_text`:
`cleanText text min_line_length preserve_structure` is
`clean_text(text, ..., min_line_length=..., preserve_structure=...)`
(the three boolean removal options are always `True` at this call site),
and the other two fields are the aggressive-mode helpers. -/
structure TextCleanerOps where
  cleanText : String → Nat → Bool → String
  removeDuplicateLines : String → String
  extractContentBlocks : String → List String

/-- A work item returned by `Get_Text_To_Clean`. -/
structure CleanRecord where
  fileId : Nat
  extractedText : Option String
  characterCount : Nat

/-- A row of `EnergyLabelCleanedText`. -/
structure CleanedRow where
  fileId : Nat
  cleanText : String
  characterCount : Nat
deriving DecidableEq, Repr

/-- The cleaned text produced for input `t`: basic cleaning, plus
`remove_duplicate_lines` and content-block extraction joined with blank
lines in aggressive mode (`min_line_length` 10 instead of 3,
`preserve_structure` off). -/
def cleanedTextOf (tc : TextCleanerOps) (aggressive : Bool) (t : String) : String :=
  let c := tc.cleanText t (if aggressive then 10 else 3) (!aggressive)
  if aggressive then
    String.intercalate "\n\n" (tc.extractContentBlocks (tc.removeDuplicateLines c))
  else c

/-- `TextCleaningProcessor.clean_single_text`: reject empty input or input
whose stripped length is under 10, clean, reject cleaned output that is
empty or has stripped length under 5, otherwise persist one
`EnergyLabelCleanedText` row (`saveOk` models whether the insert commits).
Returns the reported boolean and the cleaned-text table after the call. -/
def clean_single_text (tc : TextCleanerOps) (saveOk : Bool) (record : CleanRecord)
    (aggressive : Bool) (store : List CleanedRow) : Bool × List CleanedRow :=
  match record.extractedText with
  | none => (false, store)
  | some t =>
      if t.isEmpty || decide ((trimChars t.toList).length < 10) then (false, store)
      else
        let cleaned := cleanedTextOf tc aggressive t
        if cleaned.isEmpty || decide ((trimChars cleaned.toList).length < 5) then (false, store)
        else if saveOk then
          (true, store ++ [⟨record.fileId, cleaned, cleaned.length⟩])
        else (false, store)

/-! ## PDF downloader (`src/services/pdf_downloader.py`) -/

/-- The outcome of `session.get(url, stream=True)` as `download_pdf` reads
it: `ok` is whether `raise_for_status()` passes, plus status code, headers
and the streamed body (as characters standing for bytes). -/
structure DlResponse where
  ok : Bool
  statusCode : Nat
  contentLength : Option Nat
  content : List Char
deriving DecidableEq, Repr

/-- A row of the download-attempt log written by `log_download_attempt`. -/
structure DlLogEntry where
  url : String
  filename : String
  status : String
  fileSize : Option Nat
  httpStatusCode : Option Nat
deriving DecidableEq, Repr

/-- State touched by `PDFDownloader.download_pdf`: the files in the PDF
directory (name paired with content), the attempt log, the three counters,
and the trace of URLs actually requested over the network. -/
structure DlState where
  files : List (String × List Char)
  log : List DlLogEntry
  downloadsSuccessful : Nat
  downloadsSkipped : Nat
  downloadsFailed : Nat
  netRequests : List String
deriving DecidableEq, Repr

/-- `content_start.lower()` contains `b'<html'` or `b'error'` within the
first 100 bytes. -/
def looksLikeErrorPage (content : List Char) : Bool :=
  let start := (content.take 100).map Char.toLower
  decide ("<html".toList <:+: start) || decide ("error".toList <:+: start)

/-- `PDFDownloader.download_pdf`.  `net` models `session.get`,
`extractName` models `extract_filename_from_url` (used only when no
expected filename is supplied).  Returns the reported boolean and the new
state. -/
def download_pdf (net : String → DlResponse) (extractName : String → String)
    (url : String) (expectedFilename : Option String) (s : DlState) :
    Bool × DlState :=
  let filename := expectedFilename.getD (extractName url)
  match s.files.lookup filename with
  | some content =>
      (true, { s with
        log := s.log ++ [⟨url, filename, "Already Exists", some content.length, none⟩]
        downloadsSkipped := s.downloadsSkipped + 1 })
  | none =>
      let resp := net url
      let s1 := { s with netRequests := s.netRequests ++ [url] }
      if !resp.ok then
        (false, { s1 with
          log := s1.log ++ [⟨url, filename, "HTTP Error", none, some resp.statusCode⟩]
          downloadsFailed := s1.downloadsFailed + 1 })
      else
        let tooLarge := match resp.contentLength with
          | some n => decide (50 * 1024 * 1024 < n)
          | none => false
        if tooLarge then
          (false, { s1 with
            log := s1.log ++
              [⟨url, filename, "File Too Large", resp.contentLength, some resp.statusCode⟩]
            downloadsFailed := s1.downloadsFailed + 1 })
        else
          let actualSize := resp.content.length
          if actualSize < 1024 && looksLikeErrorPage resp.content then
            (false, { s1 with
              log := s1.log ++
                [⟨url, filename, "Invalid Content", some actualSize, some resp.statusCode⟩]
              downloadsFailed := s1.downloadsFailed + 1 })
          else
            (true, { s1 with
              files := s1.files ++ [(filename, resp.content)]
              log := s1.log ++
                [⟨url, filename, "Success", some actualSize, some resp.statusCode⟩]
              downloadsSuccessful := s1.downloadsSuccessful + 1 })

/-! ## General lemmas about the embedding -/

theorem chunksOf_nil (n : Nat) : chunksOf n ([] : List α) = [] := by
  cases n <;> simp [chunksOf]

theorem chunksOf_cons (n : Nat) (hn : n ≠ 0) (l : List α) (hl : l ≠ []) :
    chunksOf n l = l.take n :: chunksOf n (l.drop n) := by
  cases n with
  | zero => exact absurd rfl hn
  | succ m =>
    cases l with
    | nil => exact absurd rfl hl
    | cons x xs => simp [chunksOf]

/-- Rejoining the chunks recovers the original list (for positive chunk size). -/
theorem chunksOf_join (n : Nat) (hn : n ≠ 0) (l : List α) :
    (chunksOf n l).flatten = l := by
  by_cases hl : l = []
  · subst hl; simp [chunksOf_nil]
  · rw [chunksOf_cons n hn l hl]
    simp only [List.flatten_cons]
    rw [chunksOf_join n hn (l.drop n)]
    exact List.take_append_drop n l
termination_by l.length
decreasing_by
  have hpos : 0 < l.length := List.length_pos.mpr hl
  simp only [List.length_drop]
  omega

/-- Running the insert loop on a concatenation of chunk lists processes the
first part and continues with the second, the start index advanced by one
`batch_size` step per chunk. -/
theorem insertBatches_append (ins : Nat → List Row → Option String)
    (total bs : Nat) (cs1 cs2 : List (List Row)) :
    ∀ (start : Nat) (s : InsertLoopState),
      insertBatches ins total bs (cs1 ++ cs2) start s =
        insertBatches ins total bs cs2 (start + cs1.length * bs)
          (insertBatches ins total bs cs1 start s) := by
  induction cs1 with
  | nil => intro start s; simp [insertBatches]
  | cons b rest ih =>
      intro start s
      have harith : start + bs + rest.length * bs = start + (rest.length + 1) * bs := by ring
      cases hb : ins start b with
      | none =>
          simp only [List.cons_append, insertBatches, hb]
          rw [show rest.append cs2 = rest ++ cs2 from rfl, ih, harith]
          simp
      | some msg =>
          simp only [List.cons_append, insertBatches, hb]
          rw [show rest.append cs2 = rest ++ cs2 from rfl, ih, harith]
          simp

/-- If every chunk's insert succeeds, the loop commits all of them in order
and records no failures or errors. -/
theorem insertBatches_all_ok (ins : Nat → List Row → Option String)
    (total bs : Nat) (cs : List (List Row)) :
    ∀ (start : Nat) (s : InsertLoopState),
      (∀ i (hi : i < cs.length), ins (start + i * bs) (cs.get ⟨i, hi⟩) = none) →
      insertBatches ins total bs cs start s =
        { s with table := s.table ++ cs.flatten,
                 inserted := s.inserted + cs.flatten.length } := by
  induction cs with
  | nil => intro start s _; simp [insertBatches]
  | cons b rest ih =>
      intro start s hok
      have hb : ins start b = none := by
        have := hok 0 (by simp)
        simpa using this
      have hrest : ∀ i (hi : i < rest.length),
          ins (start + bs + i * bs) (rest.get ⟨i, hi⟩) = none := by
        intro i hi
        have harith : start + bs + i * bs = start + (i + 1) * bs := by ring
        rw [harith]
        have := hok (i + 1) (by simpa using Nat.succ_lt_succ hi)
        simpa using this
      simp only [insertBatches, hb]
      rw [ih (start + bs) _ hrest]
      simp [List.append_assoc, Nat.add_assoc]

/-- C1, main lemma: in a run whose chunk list decomposes as
`pre ++ failing :: post`, where the failing chunk's insert raises `msg` and
every other chunk's insert succeeds, exactly the other chunks are committed,
the failing chunk's rows are counted failed, and one error is recorded. -/
theorem insertBatches_one_failure (ins : Nat → List Row → Option String)
    (total bs : Nat) (pre post : List (List Row)) (bj : List Row)
    (msg : String) (s : InsertLoopState)
    (hpre : ∀ i (hi : i < pre.length), ins (i * bs) (pre.get ⟨i, hi⟩) = none)
    (hfail : ins (pre.length * bs) bj = some msg)
    (hpost : ∀ i (hi : i < post.length),
      ins ((pre.length + 1 + i) * bs) (post.get ⟨i, hi⟩) = none) :
    insertBatches ins total bs (pre ++ bj :: post) 0 s =
      { table := s.table ++ pre.flatten ++ post.flatten
        inserted := s.inserted + pre.flatten.length + post.flatten.length
        failed := s.failed + bj.length
        errors := s.errors ++
          ["Batch " ++ toString (pre.length * bs) ++ "-" ++
            toString (min (pre.length * bs + bs) total) ++ " failed: " ++ msg] } := by
  rw [insertBatches_append]
  rw [insertBatches_all_ok ins total bs pre 0 s (by simpa using hpre)]
  simp only [Nat.zero_add, insertBatches, hfail]
  have hpost' : ∀ i (hi : i < post.length),
      ins (pre.length * bs + bs + i * bs) (post.get ⟨i, hi⟩) = none := by
    intro i hi
    have harith : pre.length * bs + bs + i * bs = (pre.length + 1 + i) * bs := by ring
    rw [harith]; exact hpost i hi
  rw [insertBatches_all_ok ins total bs post _ _ hpost']

/-- The batched duplicate-check queries against a fixed table never raise
and return the concatenation of the per-batch matches. -/
theorem runBatchQueries_tableQuery (t : List String) :
    ∀ parts : List (List String),
      runBatchQueries (tableQuery t) parts =
        .ok (parts.flatMap (fun b => t.filter (fun k => b.contains k)))
  | [] => by simp [runBatchQueries]
  | b :: bs => by
      simp only [runBatchQueries, tableQuery, runBatchQueries_tableQuery t bs,
        List.flatMap_cons]
      rfl

/-- `List.contains` is the decision procedure for membership (over a lawful
`BEq` such as the one on `String`). -/
theorem contains_eq_decide_mem (l : List String) (a : String) :
    l.contains a = decide (a ∈ l) := by
  by_cases h : a ∈ l <;> simp [h]

/-- Counting a disjunction of two everywhere-incompatible predicates splits
into a sum. -/
theorem countP_or_disjoint (P Q : String → Bool)
    (h : ∀ x, ¬(P x = true ∧ Q x = true)) :
    ∀ t : List String, t.countP (fun x => P x || Q x) = t.countP P + t.countP Q
  | [] => by simp
  | a :: t => by
      have ih := countP_or_disjoint P Q h t
      by_cases hP : P a = true
      · have hQ : Q a = false := by
          cases hQa : Q a
          · rfl
          · exact absurd ⟨hP, hQa⟩ (h a)
        simp [List.countP_cons, hP, hQ, ih]
        omega
      · have hP' : P a = false := by simpa using hP
        by_cases hQ : Q a = true
        · simp [List.countP_cons, hP', hQ, ih]
          omega
        · have hQ' : Q a = false := by simpa using hQ
          simp [List.countP_cons, hP', hQ', ih]

/-- When the batches partition a duplicate-free key list, the concatenated
per-batch matches against `t` are exactly the matches against the whole
key list. -/
theorem length_flatMap_filter (t : List String) :
    ∀ parts : List (List String), parts.flatten.Nodup →
      (parts.flatMap (fun b => t.filter (fun k => b.contains k))).length =
        (t.filter (fun k => parts.flatten.contains k)).length
  | [], _ => by simp
  | p :: parts, h => by
      rw [List.flatten_cons] at h
      obtain ⟨hp, hrest, hdisj⟩ := List.nodup_append.mp h
      have ih := length_flatMap_filter t parts hrest
      simp only [List.flatMap_cons, List.length_append, ih, List.flatten_cons]
      rw [← List.countP_eq_length_filter, ← List.countP_eq_length_filter,
        ← List.countP_eq_length_filter]
      have hsplit : List.countP (fun k => (p ++ parts.flatten).contains k) t =
          List.countP (fun k => p.contains k || parts.flatten.contains k) t := by
        refine List.countP_congr fun x _ => ?_
        constructor
        · intro hx
          have : x ∈ p ++ parts.flatten := by simpa using hx
          rcases List.mem_append.mp this with hx' | hx'
          · simp [hx']
          · simp [hx']
        · intro hx
          have hm : x ∈ p ∨ x ∈ parts.flatten := by
            rcases Bool.or_eq_true_iff.mp hx with hx' | hx'
            · exact Or.inl (by simpa using hx')
            · exact Or.inr (by simpa using hx')
          rw [contains_eq_decide_mem]
          simp only [List.mem_append, decide_eq_true_eq]
          exact hm
      rw [hsplit, countP_or_disjoint _ _ ?_ t]
      intro x hx
      have hx1 : x ∈ p := by simpa using hx.1
      have hx2 : x ∈ parts.flatten := by simpa using hx.2
      exact hdisj hx1 hx2

/-- For duplicate-free lists, the number of elements of `t` occurring in
`keys` equals the number of elements of `keys` occurring in `t`. -/
theorem filter_contains_length_comm (t keys : List String)
    (ht : t.Nodup) (hk : keys.Nodup) :
    (t.filter (fun x => keys.contains x)).length =
      (keys.filter (fun x => t.contains x)).length := by
  have h1 : (t.filter (fun x => keys.contains x)).toFinset =
      t.toFinset ∩ keys.toFinset := by
    ext x
    simp [List.mem_filter]
  have h2 : (keys.filter (fun x => t.contains x)).toFinset =
      keys.toFinset ∩ t.toFinset := by
    ext x
    simp [List.mem_filter]
  rw [← List.toFinset_card_of_nodup (ht.filter _),
      ← List.toFinset_card_of_nodup (hk.filter _), h1, h2, Finset.inter_comm]

/-- When every row has a non-null key, counting matched keys equals counting
rows whose key is already stored. -/
theorem filterMap_key_countP (t : List String) :
    ∀ rows : List Row, (∀ r ∈ rows, r.attestnummer ≠ none) →
      ((rows.filterMap (·.attestnummer)).filter (fun k => t.contains k)).length =
        rows.countP (keyExistsIn t)
  | [], _ => rfl
  | r :: rows, h => by
      have hr := h r (List.mem_cons_self r rows)
      have ih := filterMap_key_countP t rows (fun x hx => h x (List.mem_cons_of_mem r hx))
      cases hatt : r.attestnummer with
      | none => exact absurd hatt hr
      | some k =>
          simp only [contains_eq_decide_mem] at ih
          by_cases hk : k ∈ t
          · simp [List.filterMap_cons, hatt, List.countP_cons, keyExistsIn,
              contains_eq_decide_mem, hk, ih, List.filter_cons]
          · simp [List.filterMap_cons, hatt, List.countP_cons, keyExistsIn,
              contains_eq_decide_mem, hk, ih, List.filter_cons]

/-- Characterization of `check_existing_records` against a store obeying the
staging-table invariant (duplicate-free keys), for a CSV whose own keys are
duplicate-free: the new records are exactly the rows whose key is not
stored, and the existing count is the number of CSV keys already stored. -/
theorem check_existing_spec (storeKeys : List String) (df : DataFrame)
    (hcol : df.hasKeyColumn = true)
    (hnodup : (df.rows.filterMap (·.attestnummer)).Nodup)
    (hstore : storeKeys.Nodup) :
    (check_existing_records (tableQuery storeKeys) df).new_records =
        df.rows.filter (fun r => !keyExistsIn storeKeys r) ∧
    (check_existing_records (tableQuery storeKeys) df).existing_count =
        ((df.rows.filterMap (·.attestnummer)).filter
          (fun k => storeKeys.contains k)).length := by
  unfold check_existing_records
  simp only [hcol, Bool.not_true, Bool.false_eq_true, if_false]
  cases he : (df.rows.filterMap (·.attestnummer)).isEmpty with
  | true =>
      have hkeys : df.rows.filterMap (·.attestnummer) = [] :=
        List.isEmpty_iff.mp he
      have hall : ∀ r ∈ df.rows, r.attestnummer = none :=
        List.filterMap_eq_nil_iff.mp hkeys
      constructor
      · show (allNewResult df).new_records = _
        have : df.rows.filter (fun r => !keyExistsIn storeKeys r) = df.rows := by
          rw [List.filter_congr (q := fun _ => true), List.filter_true]
          intro r hr
          simp [keyExistsIn, hall r hr]
        rw [this]
        rfl
      · show (allNewResult df).existing_count = _
        rw [hkeys]
        rfl
  | false =>
      rw [runBatchQueries_tableQuery]
      simp only []
      have hflat : (chunksOf 1000 (df.rows.filterMap (·.attestnummer))).flatten =
          df.rows.filterMap (·.attestnummer) :=
        chunksOf_join 1000 (by decide) _
      have hmem : ∀ k, k ∈ df.rows.filterMap (·.attestnummer) →
          (((chunksOf 1000 (df.rows.filterMap (·.attestnummer))).flatMap
            (fun b => storeKeys.filter (fun x => b.contains x))).contains k =
            storeKeys.contains k) := by
        intro k hk
        have hiff : k ∈ (chunksOf 1000 (df.rows.filterMap (·.attestnummer))).flatMap
            (fun b => storeKeys.filter (fun x => b.contains x)) ↔ k ∈ storeKeys := by
          constructor
          · intro hkx
            rcases List.mem_flatMap.mp hkx with ⟨b, _, hkb⟩
            exact (List.mem_filter.mp hkb).1
          · intro hks
            have hkflat : k ∈ (chunksOf 1000 (df.rows.filterMap (·.attestnummer))).flatten := by
              rw [hflat]; exact hk
            rcases List.mem_flatten.mp hkflat with ⟨b, hb, hkb⟩
            exact List.mem_flatMap.mpr ⟨b, hb, List.mem_filter.mpr ⟨hks, by simpa using hkb⟩⟩
        rw [contains_eq_decide_mem, contains_eq_decide_mem]
        exact decide_eq_decide.mpr hiff
      constructor
      · refine List.filter_congr fun r hr => ?_
        cases hatt : r.attestnummer with
        | none => simp [keyExistsIn, hatt]
        | some k =>
            have hk : k ∈ df.rows.filterMap (·.attestnummer) :=
              List.mem_filterMap.mpr ⟨r, hr, hatt⟩
            simp only [keyExistsIn, hatt]
            rw [hmem k hk]
      · show ((chunksOf 1000 _).flatMap _).length = _
        rw [length_flatMap_filter storeKeys _ (by rw [hflat]; exact hnodup), hflat,
          filter_contains_length_comm storeKeys _ hstore hnodup]

/-! ## Claims -/

/-- C1: For every CSV import run over rows partitioned into fixed-size
batches, if the insert of one batch raises an error, that batch alone is
rolled back (its rows are absent from the final table) and recorded as a
single error message with its rows counted as failed, while batches before
it remain committed and batches after it are still attempted and committed;
the run is not all-or-nothing. -/
theorem claim_C1_batch_partial_success
    (q : List String → Except String (List String))
    (ins : Nat → List Row → Option String) (df : DataFrame) (bs : Nat)
    (tbl : List Row) (pre post : List (List Row)) (bj : List Row) (msg : String)
    (hchunks : chunksOf bs df.rows = pre ++ bj :: post)
    (hpre : ∀ i (hi : i < pre.length), ins (i * bs) (pre.get ⟨i, hi⟩) = none)
    (hfail : ins (pre.length * bs) bj = some msg)
    (hpost : ∀ i (hi : i < post.length),
      ins ((pre.length + 1 + i) * bs) (post.get ⟨i, hi⟩) = none) :
    insert_to_database q ins df bs false tbl =
      ({ success := decide (0 < pre.flatten.length + post.flatten.length)
         total_rows := df.rows.length
         inserted_rows := pre.flatten.length + post.flatten.length
         skipped_rows := 0
         failed_rows := bj.length
         errors := ["Batch " ++ toString (pre.length * bs) ++ "-" ++
           toString (min (pre.length * bs + bs) df.rows.length) ++ " failed: " ++ msg]
         message := none },
       tbl ++ pre.flatten ++ post.flatten) := by
  simp only [insert_to_database, Bool.false_and, Bool.and_self, if_neg, ite_false,
    Bool.false_eq_true, not_false_iff]
  rw [hchunks]
  rw [insertBatches_one_failure ins df.rows.length bs pre post bj msg ⟨tbl, 0, 0, []⟩
    hpre hfail hpost]
  simp [List.append_assoc]

/-- Witness for C1: six rows in batches of two; the middle batch fails with
"boom".  Rows 0,1 (before) and 4,5 (after) are committed, rows 2,3 are not,
one error message is recorded and `failed_rows = 2`. -/
theorem claim_C1_batch_partial_success_witness :
    insert_to_database (fun _ => .ok [])
        (fun start _ => if start = 2 then some "boom" else none)
        ⟨true, [⟨none, 0⟩, ⟨none, 1⟩, ⟨none, 2⟩, ⟨none, 3⟩, ⟨none, 4⟩, ⟨none, 5⟩]⟩
        2 false [] =
      ({ success := true
         total_rows := 6
         inserted_rows := 4
         skipped_rows := 0
         failed_rows := 2
         errors := ["Batch 2-4 failed: boom"]
         message := none },
       [⟨none, 0⟩, ⟨none, 1⟩, ⟨none, 4⟩, ⟨none, 5⟩]) := by
  have h := claim_C1_batch_partial_success (fun _ => .ok [])
    (fun start _ => if start = 2 then some "boom" else none)
    ⟨true, [⟨none, 0⟩, ⟨none, 1⟩, ⟨none, 2⟩, ⟨none, 3⟩, ⟨none, 4⟩, ⟨none, 5⟩]⟩
    2 [] [[⟨none, 0⟩, ⟨none, 1⟩]] [[⟨none, 4⟩, ⟨none, 5⟩]] [⟨none, 2⟩, ⟨none, 3⟩]
    "boom" (by simp [chunksOf]) (by decide) (by decide) (by decide)
  simpa using h

/-- C3, counterexample: importing an empty CSV (zero data rows) with
duplicate-skipping DISABLED reports `success = false`, refuting the claim
that the empty import is a success regardless of the duplicate-skipping
mode (`success = inserted_rows > 0 or (total == 0 and skipped > 0)` is
false when everything is zero). -/
theorem claim_C3_empty_csv_counterexample :
    (insert_to_database (fun _ => .ok []) (fun _ _ => none)
      ⟨true, []⟩ 1000 false []).1.success = false := by
  simp [insert_to_database, chunksOf_nil, insertBatches]

/-- C3 (amended): an empty CSV import inserts zero rows with no failures in
both modes; it reports `success = true` (via the early "all records already
exist" return) when duplicate-skipping is enabled, but `success = false`
when duplicate-skipping is disabled. -/
theorem claim_C3_empty_csv
    (q : List String → Except String (List String))
    (ins : Nat → List Row → Option String) (bs : Nat) (tbl : List Row)
    (df : DataFrame) (h : df.rows = []) :
    insert_to_database q ins df bs true tbl =
      ({ success := true, total_rows := 0, inserted_rows := 0, skipped_rows := 0,
         failed_rows := 0, errors := [],
         message := some "All records already exist in database" }, tbl) ∧
    insert_to_database q ins df bs false tbl =
      ({ success := false, total_rows := 0, inserted_rows := 0, skipped_rows := 0,
         failed_rows := 0, errors := [], message := none }, tbl) := by
  obtain ⟨hk, rows⟩ := df
  simp only at h
  subst h
  cases hk <;>
    simp [insert_to_database, check_existing_records, allNewResult, chunksOf_nil,
      insertBatches]

/-- Witness for C3 (amended), at the concrete empty `DataFrame`. -/
theorem claim_C3_empty_csv_witness :
    insert_to_database (fun _ => .ok []) (fun _ _ => none) ⟨true, []⟩ 1000 true [] =
      ({ success := true, total_rows := 0, inserted_rows := 0, skipped_rows := 0,
         failed_rows := 0, errors := [],
         message := some "All records already exist in database" }, []) ∧
    insert_to_database (fun _ => .ok []) (fun _ _ => none) ⟨true, []⟩ 1000 false [] =
      ({ success := false, total_rows := 0, inserted_rows := 0, skipped_rows := 0,
         failed_rows := 0, errors := [], message := none }, []) :=
  claim_C3_empty_csv (fun _ => .ok []) (fun _ _ => none) 1000 [] ⟨true, []⟩ rfl

/-- C4: For every CSV import with duplicate-skipping enabled, against a
store obeying the staging-table invariant (duplicate-free keys) and a CSV
with duplicate-free non-null keys, where all remaining inserts succeed:
exactly the rows whose key is not already stored are inserted (appended to
the staging table), the result reports `read = |rows|`, `skipped` = the
number of rows whose key already exists, `failed = 0`, and success; in
particular rows with already-present keys are never re-inserted. -/
theorem claim_C4_duplicate_skipping
    (storeKeys : List String) (ins : Nat → List Row → Option String)
    (df : DataFrame) (bs : Nat) (tbl : List Row)
    (hcol : df.hasKeyColumn = true)
    (hsome : ∀ r ∈ df.rows, r.attestnummer ≠ none)
    (hnodup : (df.rows.filterMap (·.attestnummer)).Nodup)
    (hstore : storeKeys.Nodup)
    (hins : ∀ start b, ins start b = none)
    (hbs : bs ≠ 0) :
    (insert_to_database (tableQuery storeKeys) ins df bs true tbl).1.success = true ∧
    (insert_to_database (tableQuery storeKeys) ins df bs true tbl).1.total_rows =
      df.rows.length ∧
    (insert_to_database (tableQuery storeKeys) ins df bs true tbl).1.inserted_rows =
      (df.rows.filter (fun r => !keyExistsIn storeKeys r)).length ∧
    (insert_to_database (tableQuery storeKeys) ins df bs true tbl).1.skipped_rows =
      df.rows.countP (keyExistsIn storeKeys) ∧
    (insert_to_database (tableQuery storeKeys) ins df bs true tbl).1.failed_rows = 0 ∧
    (insert_to_database (tableQuery storeKeys) ins df bs true tbl).2 =
      tbl ++ df.rows.filter (fun r => !keyExistsIn storeKeys r) := by
  obtain ⟨hnew, hcount⟩ := check_existing_spec storeKeys df hcol hnodup hstore
  have hskip : (check_existing_records (tableQuery storeKeys) df).existing_count =
      df.rows.countP (keyExistsIn storeKeys) :=
    hcount.trans (filterMap_key_countP storeKeys df.rows hsome)
  unfold insert_to_database
  simp only [hnew, hskip, Bool.true_and, if_true]
  cases hE : (df.rows.filter (fun r => !keyExistsIn storeKeys r)).isEmpty with
  | true =>
      have hnil : df.rows.filter (fun r => !keyExistsIn storeKeys r) = [] :=
        List.isEmpty_iff.mp hE
      simp [hE, hnil]
  | false =>
      have hpos : 0 < (df.rows.filter (fun r => !keyExistsIn storeKeys r)).length := by
        rcases hfe : df.rows.filter (fun r => !keyExistsIn storeKeys r) with _ | ⟨a, l⟩
        · rw [hfe] at hE; simp at hE
        · simp
      have hloop := insertBatches_all_ok ins
        (df.rows.filter (fun r => !keyExistsIn storeKeys r)).length bs
        (chunksOf bs (df.rows.filter (fun r => !keyExistsIn storeKeys r))) 0
        ⟨tbl, 0, 0, []⟩ (fun i hi => hins _ _)
      simp only [hE, Bool.and_false, Bool.false_eq_true, if_false, hloop,
        chunksOf_join bs hbs]
      simp [hpos]

/-- Witness for C4, the spec scenario: 3 CSV rows with keys A, B, C, key A
already stored → read 3, inserted 2 (B and C appended), skipped 1,
failed 0. -/
theorem claim_C4_duplicate_skipping_witness :
    (insert_to_database (tableQuery ["A"]) (fun _ _ => none)
      ⟨true, [⟨some "A", 0⟩, ⟨some "B", 1⟩, ⟨some "C", 2⟩]⟩ 1000 true []).1.success = true ∧
    (insert_to_database (tableQuery ["A"]) (fun _ _ => none)
      ⟨true, [⟨some "A", 0⟩, ⟨some "B", 1⟩, ⟨some "C", 2⟩]⟩ 1000 true []).1.total_rows = 3 ∧
    (insert_to_database (tableQuery ["A"]) (fun _ _ => none)
      ⟨true, [⟨some "A", 0⟩, ⟨some "B", 1⟩, ⟨some "C", 2⟩]⟩ 1000 true []).1.inserted_rows = 2 ∧
    (insert_to_database (tableQuery ["A"]) (fun _ _ => none)
      ⟨true, [⟨some "A", 0⟩, ⟨some "B", 1⟩, ⟨some "C", 2⟩]⟩ 1000 true []).1.skipped_rows = 1 ∧
    (insert_to_database (tableQuery ["A"]) (fun _ _ => none)
      ⟨true, [⟨some "A", 0⟩, ⟨some "B", 1⟩, ⟨some "C", 2⟩]⟩ 1000 true []).1.failed_rows = 0 ∧
    (insert_to_database (tableQuery ["A"]) (fun _ _ => none)
      ⟨true, [⟨some "A", 0⟩, ⟨some "B", 1⟩, ⟨some "C", 2⟩]⟩ 1000 true []).2 =
      [⟨some "B", 1⟩, ⟨some "C", 2⟩] :=
  claim_C4_duplicate_skipping ["A"] (fun _ _ => none)
    ⟨true, [⟨some "A", 0⟩, ⟨some "B", 1⟩, ⟨some "C", 2⟩]⟩ 1000 []
    rfl (by decide) (by decide) (by decide) (fun _ _ => rfl) (by decide)

/-- C5: when the `Attestnummer` column is absent the duplicate check is
disabled entirely (zero existing records, every row passed on as new), and
every row whose natural key is null is always passed on for insertion. -/
theorem claim_C5_null_keys_all_new
    (q : List String → Except String (List String)) (df : DataFrame) :
    (df.hasKeyColumn = false → check_existing_records q df = allNewResult df) ∧
    (∀ r ∈ df.rows, r.attestnummer = none →
      r ∈ (check_existing_records q df).new_records) := by
  constructor
  · intro h
    simp [check_existing_records, h]
  · intro r hr hnone
    unfold check_existing_records
    by_cases hk : df.hasKeyColumn
    · simp only [hk, Bool.not_true, Bool.false_eq_true, if_false]
      by_cases he : (df.rows.filterMap (·.attestnummer)).isEmpty
      · simp [he, allNewResult, hr]
      · simp only [he, Bool.false_eq_true, if_false]
        cases hrun : runBatchQueries q (chunksOf 1000 (df.rows.filterMap (·.attestnummer))) with
        | error e => simpa [allNewResult] using hr
        | ok ex =>
            simp only []
            exact List.mem_filter.mpr ⟨hr, by simp [hnone]⟩
    · simp [hk, allNewResult, hr]

/-- Witness for C5: a missing key column disables the check; a null-key row
survives the check next to a duplicate-key row. -/
theorem claim_C5_null_keys_all_new_witness :
    check_existing_records (fun _ => .ok ["A"]) ⟨false, [⟨some "A", 0⟩]⟩ =
      allNewResult ⟨false, [⟨some "A", 0⟩]⟩ ∧
    (⟨none, 1⟩ : Row) ∈
      (check_existing_records (fun _ => .ok ["A"])
        ⟨true, [⟨some "A", 0⟩, ⟨none, 1⟩]⟩).new_records :=
  ⟨(claim_C5_null_keys_all_new (fun _ => .ok ["A"]) ⟨false, [⟨some "A", 0⟩]⟩).1 rfl,
   (claim_C5_null_keys_all_new (fun _ => .ok ["A"])
      ⟨true, [⟨some "A", 0⟩, ⟨none, 1⟩]⟩).2 ⟨none, 1⟩ (by simp) rfl⟩

/-- C10: when the duplicate-check query raises, the check reports zero
existing records, returns every row as new and records the error in its
result; the import then behaves exactly as if duplicate-skipping were
disabled (all rows are attempted). -/
theorem claim_C10_check_failure_disables_dedup
    (q : List String → Except String (List String))
    (ins : Nat → List Row → Option String) (df : DataFrame) (bs : Nat)
    (tbl : List Row) (e : String)
    (hcol : df.hasKeyColumn = true)
    (hne : df.rows.filterMap (·.attestnummer) ≠ [])
    (hq : runBatchQueries q (chunksOf 1000 (df.rows.filterMap (·.attestnummer))) =
      .error e) :
    check_existing_records q df =
      { existing_count := 0, new_count := df.rows.length,
        existing_attestnummer := [], new_records := df.rows,
        check_error := some e } ∧
    insert_to_database q ins df bs true tbl =
      insert_to_database q ins df bs false tbl := by
  have hempty : (df.rows.filterMap (·.attestnummer)).isEmpty = false := by
    simpa [List.isEmpty_iff] using hne
  have hcheck : check_existing_records q df =
      { existing_count := 0, new_count := df.rows.length,
        existing_attestnummer := [], new_records := df.rows,
        check_error := some e } := by
    simp [check_existing_records, hcol, hempty, hq, allNewResult]
  refine ⟨hcheck, ?_⟩
  have hrows : df.rows.isEmpty = false := by
    cases hr : df.rows with
    | nil => rw [hr] at hne; simp at hne
    | cons a l => rfl
  unfold insert_to_database
  rw [hcheck]
  simp [hrows]

/-- Witness for C10: a query raising "db down" leaves the single row as new
and makes the skip-duplicates run coincide with the no-skip run. -/
theorem claim_C10_check_failure_disables_dedup_witness :
    check_existing_records (fun _ => .error "db down") ⟨true, [⟨some "A", 0⟩]⟩ =
      { existing_count := 0, new_count := 1, existing_attestnummer := [],
        new_records := [⟨some "A", 0⟩], check_error := some "db down" } ∧
    insert_to_database (fun _ => .error "db down") (fun _ _ => none)
        ⟨true, [⟨some "A", 0⟩]⟩ 1000 true [] =
      insert_to_database (fun _ => .error "db down") (fun _ _ => none)
        ⟨true, [⟨some "A", 0⟩]⟩ 1000 false [] :=
  claim_C10_check_failure_disables_dedup (fun _ => .error "db down")
    (fun _ _ => none) ⟨true, [⟨some "A", 0⟩]⟩ 1000 [] "db down" rfl
    (by decide)
    (by
      have ht : (["A"] : List String).take 1000 = ["A"] := rfl
      have hd : (["A"] : List String).drop 1000 = [] := rfl
      show runBatchQueries (fun _ => .error "db down") (chunksOf 1000 ["A"]) =
        .error "db down"
      rw [chunksOf_cons 1000 (by decide) ["A"] (by decide), ht, hd, chunksOf_nil]
      rfl)

/-- C2, counterexample: the log update's `WHERE` clause has no batch
condition, so with two `Pending` rows for certificate 1 — one left over
from an earlier batch (timestamp 0), one from the current batch
(timestamp 1) — a single update transitions BOTH rows, refuting "exactly
one Pending row per (certificate ID, batch) pair transitions, never more
than one". -/
theorem claim_C2_counterexample :
    (update_api_log 1 5 "Success"
        [⟨1, 0, none, "Pending"⟩, ⟨1, 1, none, "Pending"⟩]).2 =
      [⟨1, 0, some 5, "Success"⟩, ⟨1, 1, some 5, "Success"⟩] ∧
    ((update_api_log 1 5 "Success"
        [⟨1, 0, none, "Pending"⟩, ⟨1, 1, none, "Pending"⟩]).2.countP
          (fun r => r.statusMessage == "Success")) = 2 := by
  decide

/-- C2 (amended): the update transitions every `Pending` row with the given
certificate ID regardless of batch; when the log holds exactly one such row
(the normal case after stale-`Pending` cleanup and one-shot logging), the
update reports success, changes exactly one row, and leaves no `Pending`
row for that certificate ID. -/
theorem claim_C2_pending_update (cid recs : Nat) (st : String) (log : List LogRow)
    (hone : log.countP
      (fun r => r.certificateId == cid && r.statusMessage == "Pending") = 1)
    (hterm : st ≠ "Pending") :
    (update_api_log cid recs st log).1 = true ∧
    log.countP (fun r => decide (updateLogRow cid recs st r ≠ r)) = 1 ∧
    (update_api_log cid recs st log).2.countP
      (fun r => r.certificateId == cid && r.statusMessage == "Pending") = 0 := by
  refine ⟨?_, ?_, ?_⟩
  · simp [update_api_log, hone]
  · rw [← hone]
    refine List.countP_congr fun r _ => ?_
    by_cases hc : (r.certificateId == cid && r.statusMessage == "Pending") = true
    · have hp : r.statusMessage = "Pending" :=
        beq_iff_eq.mp (Bool.and_eq_true_iff.mp hc).2
      have hne : updateLogRow cid recs st r ≠ r := by
        simp only [updateLogRow, hc, if_true]
        intro heq
        have hst : st = r.statusMessage := congrArg LogRow.statusMessage heq
        rw [hp] at hst
        exact hterm hst
      simp [hne, hc]
    · have heq : updateLogRow cid recs st r = r := by
        simp only [updateLogRow, hc]
        rw [if_neg]
        simp at hc
        simp [hc]
      rw [heq]
      have h1 : decide (r ≠ r) = false := decide_eq_false fun hne => hne rfl
      have h2 : (r.certificateId == cid && r.statusMessage == "Pending") = false := by
        cases hb : (r.certificateId == cid && r.statusMessage == "Pending")
        · rfl
        · exact absurd hb hc
      rw [h1, h2]
  · rw [update_api_log]
    simp only [List.countP_map]
    refine List.countP_eq_zero.mpr fun r _ => ?_
    show ¬(((updateLogRow cid recs st r).certificateId == cid &&
      (updateLogRow cid recs st r).statusMessage == "Pending") = true)
    by_cases hc : (r.certificateId == cid && r.statusMessage == "Pending") = true
    · have hst : (updateLogRow cid recs st r).statusMessage = st := by
        simp [updateLogRow, hc]
      intro habs
      have hpend := beq_iff_eq.mp (Bool.and_eq_true_iff.mp habs).2
      rw [hst] at hpend
      exact hterm hpend
    · have heq : updateLogRow cid recs st r = r := by
        simp only [updateLogRow, hc]
        rw [if_neg]
        simp at hc
        simp [hc]
      rw [heq]
      exact fun habs => hc habs

/-- Witness for C2 (amended): one `Pending` row for certificate 1 and an
unrelated `Pending` row for certificate 2; the update reports success,
changes exactly one row and clears the `Pending` state for certificate 1. -/
theorem claim_C2_pending_update_witness :
    (update_api_log 1 3 "Success"
      [⟨1, 0, none, "Pending"⟩, ⟨2, 0, none, "Pending"⟩]).1 = true ∧
    ([⟨1, 0, none, "Pending"⟩, ⟨2, 0, none, "Pending"⟩] : List LogRow).countP
      (fun r => decide (updateLogRow 1 3 "Success" r ≠ r)) = 1 ∧
    (update_api_log 1 3 "Success"
      [⟨1, 0, none, "Pending"⟩, ⟨2, 0, none, "Pending"⟩]).2.countP
      (fun r => r.certificateId == 1 && r.statusMessage == "Pending") = 0 :=
  claim_C2_pending_update 1 3 "Success"
    [⟨1, 0, none, "Pending"⟩, ⟨2, 0, none, "Pending"⟩] (by decide) (by decide)

/-- C6: a detail-API response that is HTTP 400 with an
`errors["EnergiattestResponse"]` array mentioning "more than twenty five"
is classified as the distinct non-error too-many-results outcome: the step
reports 0 records returned with terminal status
"Too many results (25+ eiendommer)", persists no detail records, and
updates the pending log row(s) for the certificate accordingly. -/
theorem claim_C6_too_many_results (saveOk : DetailData → Bool)
    (resp : HttpResponse) (cid : Nat) (log : List LogRow)
    (errs : List (List Char))
    (hstatus : resp.status = 400)
    (herrs : resp.energiattestErrors = some errs)
    (htext : hasTooManyText errs = true) :
    process_one_certificate saveOk resp cid log =
      (⟨0, "Too many results (25+ eiendommer)", []⟩,
        log.map (updateLogRow cid 0 "Too many results (25+ eiendommer)")) := by
  have hclass : call_energiattest_api resp = .tooManyResults := by
    simp [call_energiattest_api, hstatus, herrs, htext]
  simp [process_one_certificate, hclass, update_api_log]

/-- Witness for C6: a concrete 400 response with the "more than twenty
five" error text; the pending log row for certificate 7 gets
`records_returned = 0` and the too-many-results terminal status, and no
detail record is persisted. -/
theorem claim_C6_too_many_results_witness :
    process_one_certificate (fun _ => true)
        ⟨400, some ["Search returned MORE THAN TWENTY FIVE results".toList], []⟩
        7 [⟨7, 0, none, "Pending"⟩] =
      (⟨0, "Too many results (25+ eiendommer)", []⟩,
        [⟨7, 0, some 0, "Too many results (25+ eiendommer)"⟩]) := by
  have h := claim_C6_too_many_results (fun _ => true)
    ⟨400, some ["Search returned MORE THAN TWENTY FIVE results".toList], []⟩
    7 [⟨7, 0, none, "Pending"⟩]
    ["Search returned MORE THAN TWENTY FIVE results".toList]
    rfl rfl (by decide)
  rw [h]
  rfl

/-- C8: for every text-cleaning attempt, if the extracted input is missing,
empty or strips to fewer than 10 characters, or the cleaned output strips
to fewer than 5 characters, the attempt reports failure and no cleaned-text
row is persisted. -/
theorem claim_C8_short_text_failure (tc : TextCleanerOps) (saveOk : Bool)
    (record : CleanRecord) (aggressive : Bool) (store : List CleanedRow)
    (h : record.extractedText = none ∨
      (∃ t, record.extractedText = some t ∧ (trimChars t.toList).length < 10) ∨
      (∃ t, record.extractedText = some t ∧
        (trimChars (cleanedTextOf tc aggressive t).toList).length < 5)) :
    clean_single_text tc saveOk record aggressive store = (false, store) := by
  cases hext : record.extractedText with
  | none => simp [clean_single_text, hext]
  | some t =>
      rw [hext] at h
      simp only [clean_single_text, hext]
      by_cases h10 : (t.isEmpty || decide ((trimChars t.toList).length < 10)) = true
      · rw [if_pos h10]
      · have h5 : (trimChars (cleanedTextOf tc aggressive t).toList).length < 5 := by
          rcases h with h | ⟨t', ht', hlen⟩ | ⟨t', ht', hlen⟩
          · exact absurd h (by simp)
          · cases Option.some.inj ht'
            exact absurd (by rw [decide_eq_true hlen, Bool.or_true]) h10
          · cases Option.some.inj ht'
            exact hlen
        rw [if_neg h10]
        have hcond : ((cleanedTextOf tc aggressive t).isEmpty ||
            decide ((trimChars (cleanedTextOf tc aggressive t).toList).length < 5)) = true := by
          rw [decide_eq_true h5, Bool.or_true]
        rw [if_pos hcond]

/-- Witness for C8: a 2-character input is rejected without touching the
cleaned-text table. -/
theorem claim_C8_short_text_failure_witness :
    clean_single_text ⟨fun s _ _ => s, id, fun _ => []⟩ true
      ⟨1, some "hi", 2⟩ false [] = (false, []) :=
  claim_C8_short_text_failure ⟨fun s _ _ => s, id, fun _ => []⟩ true
    ⟨1, some "hi", 2⟩ false []
    (Or.inr (Or.inl ⟨"hi", rfl, by decide⟩))

/-- C9: a download request whose target file already exists reports the
attempt with the "Already Exists" status, increments the skipped counter,
returns success, and performs no network request (the request trace and
the filesystem are unchanged). -/
theorem claim_C9_skip_existing (net : String → DlResponse)
    (extractName : String → String) (url : String)
    (expectedFilename : Option String) (s : DlState) (content : List Char)
    (hexists : s.files.lookup (expectedFilename.getD (extractName url)) =
      some content) :
    download_pdf net extractName url expectedFilename s =
      (true, { s with
        log := s.log ++ [⟨url, expectedFilename.getD (extractName url),
          "Already Exists", some content.length, none⟩]
        downloadsSkipped := s.downloadsSkipped + 1 }) ∧
    (download_pdf net extractName url expectedFilename s).2.netRequests =
      s.netRequests ∧
    (download_pdf net extractName url expectedFilename s).2.files = s.files := by
  have hmain : download_pdf net extractName url expectedFilename s =
      (true, { s with
        log := s.log ++ [⟨url, expectedFilename.getD (extractName url),
          "Already Exists", some content.length, none⟩]
        downloadsSkipped := s.downloadsSkipped + 1 }) := by
    simp only [download_pdf, hexists]
  exact ⟨hmain, by rw [hmain], by rw [hmain]⟩

/-- Witness for C9: "a.pdf" is already on disk; the repeated call is a
skip, the counter moves, and no URL is requested. -/
theorem claim_C9_skip_existing_witness :
    download_pdf (fun _ => ⟨true, 200, none, []⟩) (fun _ => "z.pdf")
        "http://u" (some "a.pdf") ⟨[("a.pdf", ['x'])], [], 0, 0, 0, []⟩ =
      (true, { files := [("a.pdf", ['x'])]
               log := [⟨"http://u", "a.pdf", "Already Exists", some 1, none⟩]
               downloadsSuccessful := 0
               downloadsSkipped := 1
               downloadsFailed := 0
               netRequests := [] }) ∧
    (download_pdf (fun _ => ⟨true, 200, none, []⟩) (fun _ => "z.pdf")
        "http://u" (some "a.pdf") ⟨[("a.pdf", ['x'])], [], 0, 0, 0, []⟩).2.netRequests = [] ∧
    (download_pdf (fun _ => ⟨true, 200, none, []⟩) (fun _ => "z.pdf")
        "http://u" (some "a.pdf") ⟨[("a.pdf", ['x'])], [], 0, 0, 0, []⟩).2.files =
      [("a.pdf", ['x'])] :=
  claim_C9_skip_existing (fun _ => ⟨true, 200, none, []⟩) (fun _ => "z.pdf")
    "http://u" (some "a.pdf") ⟨[("a.pdf", ['x'])], [], 0, 0, 0, []⟩ ['x'] (by decide)

/-- C7, counterexample: file 1 has answers for BOTH `PROMPT_V1_NOR` and
`PROMPT_V2_NOR` and a non-empty `PROMPT_V2_NOR` prompt.  It has an answer
for V = `PROMPT_V1_NOR`, so by the claim the fetch for the different
version V' = `PROMPT_V2_NOR` should include it — but the query also
filters on V'-answers and returns nothing. -/
theorem claim_C7_counterexample :
    get_prompts_data "PROMPT_V2_NOR" none
        [⟨1, [("PROMPT_V1_NOR", "text a"), ("PROMPT_V2_NOR", "text b")]⟩]
        [⟨1, "PROMPT_V1_NOR"⟩, ⟨1, "PROMPT_V2_NOR"⟩] = [] ∧
    ¬ (1 ∈ (get_prompts_data "PROMPT_V2_NOR" none
        [⟨1, [("PROMPT_V1_NOR", "text a"), ("PROMPT_V2_NOR", "text b")]⟩]
        [⟨1, "PROMPT_V1_NOR"⟩, ⟨1, "PROMPT_V2_NOR"⟩]).map Prod.fst) := by
  decide

/-- C7 (amended): the fetch query excludes every file id with an answer row
for the requested prompt version (under any row limit); and a source row is
included for a prompt version when its prompt value is non-null with
positive trimmed length AND it has no answer row for that same version
(and no row limit cuts the result). -/
theorem claim_C7_prompt_version_filter (promptColumn : String)
    (limit : Option Nat) (src : List SourceRow) (answers : List AnswerRow) :
    (∀ fid, (∃ a ∈ answers, a.fileId = fid ∧ a.promptVersion = promptColumn) →
      fid ∉ (get_prompts_data promptColumn limit src answers).map Prod.fst) ∧
    (∀ r ∈ src,
      (∀ a ∈ answers, ¬(a.fileId = r.fileId ∧ a.promptVersion = promptColumn)) →
      ∀ v, r.prompts.lookup promptColumn = some v →
        0 < (trimChars v.toList).length →
        r.fileId ∈ (get_prompts_data promptColumn none src answers).map Prod.fst) := by
  have main : ∀ (lm : Option Nat) p, p ∈ get_prompts_data promptColumn lm src answers →
      ∃ r ∈ src,
        ((!answers.any (fun a => a.fileId == r.fileId && a.promptVersion == promptColumn)) &&
          (match r.prompts.lookup promptColumn with
           | none => false
           | some v => decide (0 < (trimChars v.toList).length))) = true ∧
        p.1 = r.fileId := by
    intro lm p hp
    unfold get_prompts_data at hp
    rcases List.mem_map.mp hp with ⟨r, hr, hpr⟩
    have hr' : r ∈ List.insertionSort (fun a b => a.fileId ≤ b.fileId)
        (src.filter (fun r =>
          (!answers.any (fun a => a.fileId == r.fileId && a.promptVersion == promptColumn)) &&
          (match r.prompts.lookup promptColumn with
           | none => false
           | some v => decide (0 < (trimChars v.toList).length)))) := by
      cases lm with
      | none => exact hr
      | some n => exact List.take_subset n _ hr
    have hr'' := (List.perm_insertionSort _ _).mem_iff.mp hr'
    rcases List.mem_filter.mp hr'' with ⟨hsrc, hcond⟩
    exact ⟨r, hsrc, hcond, by rw [← hpr]⟩
  constructor
  · rintro fid ⟨a, ha, hafid, haver⟩ hmem
    rcases List.mem_map.mp hmem with ⟨p, hp, hp1⟩
    rcases main limit p hp with ⟨r, hsrc, hcond, hpfid⟩
    have hany : answers.any
        (fun a => a.fileId == r.fileId && a.promptVersion == promptColumn) = false := by
      have hnot := (Bool.and_eq_true_iff.mp hcond).1
      simpa using hnot
    have hga := (List.any_eq_false.mp hany) a ha
    apply hga
    have hrfid : r.fileId = fid := by rw [← hpfid, hp1]
    rw [Bool.and_eq_true_iff]
    exact ⟨beq_iff_eq.mpr (by rw [hafid, hrfid]), beq_iff_eq.mpr haver⟩
  · intro r hr hnoans v hv hlen
    have hany : answers.any
        (fun a => a.fileId == r.fileId && a.promptVersion == promptColumn) = false := by
      cases hb : answers.any
          (fun a => a.fileId == r.fileId && a.promptVersion == promptColumn) with
      | false => rfl
      | true =>
          rcases List.any_eq_true.mp hb with ⟨a, ha, hga⟩
          rcases Bool.and_eq_true_iff.mp hga with ⟨h1, h2⟩
          exact absurd ⟨beq_iff_eq.mp h1, beq_iff_eq.mp h2⟩ (hnoans a ha)
    have hcond : ((!answers.any
        (fun a => a.fileId == r.fileId && a.promptVersion == promptColumn)) &&
        (match r.prompts.lookup promptColumn with
         | none => false
         | some v => decide (0 < (trimChars v.toList).length))) = true := by
      rw [hany, hv]
      simpa using hlen
    unfold get_prompts_data
    have hmemf : r ∈ src.filter (fun r =>
        (!answers.any (fun a => a.fileId == r.fileId && a.promptVersion == promptColumn)) &&
        (match r.prompts.lookup promptColumn with
         | none => false
         | some v => decide (0 < (trimChars v.toList).length))) :=
      List.mem_filter.mpr ⟨hr, hcond⟩
    have hmems := (List.perm_insertionSort
      (fun a b => a.fileId ≤ b.fileId) _).mem_iff.mpr hmemf
    exact List.mem_map.mpr ⟨(r.fileId, (r.prompts.lookup promptColumn).getD ""),
      List.mem_map.mpr ⟨r, hmems, rfl⟩, rfl⟩

/-- Witness for C7 (amended): file 1's answer for `PROMPT_V1_NOR` excludes
it from a re-run for `PROMPT_V1_NOR`, and a file with a prompt and no
answer for `PROMPT_V2_NOR` is included for `PROMPT_V2_NOR`. -/
theorem claim_C7_prompt_version_filter_witness :
    1 ∉ (get_prompts_data "PROMPT_V1_NOR" none
        [⟨1, [("PROMPT_V1_NOR", "text a")]⟩] [⟨1, "PROMPT_V1_NOR"⟩]).map Prod.fst ∧
    1 ∈ (get_prompts_data "PROMPT_V2_NOR" none
        [⟨1, [("PROMPT_V2_NOR", "text b")]⟩] [⟨1, "PROMPT_V1_NOR"⟩]).map Prod.fst :=
  ⟨(claim_C7_prompt_version_filter "PROMPT_V1_NOR" none
      [⟨1, [("PROMPT_V1_NOR", "text a")]⟩] [⟨1, "PROMPT_V1_NOR"⟩]).1 1
      ⟨⟨1, "PROMPT_V1_NOR"⟩, by simp, rfl, rfl⟩,
   (claim_C7_prompt_version_filter "PROMPT_V2_NOR" none
      [⟨1, [("PROMPT_V2_NOR", "text b")]⟩] [⟨1, "PROMPT_V1_NOR"⟩]).2
      ⟨1, [("PROMPT_V2_NOR", "text b")]⟩ (by simp) (by decide) "text b" rfl
      (by decide)⟩

end MiniMBA
